import Mathlib

/-!
A shallow embedding of the lockables C++ library
(include/lockables/guarded.hpp and include/lockables/value.hpp):

* the type-level lock selection performed by the SharedLock trait,
  GuardedScope::lock_type, Value::shared_lock and Value::exclusive_lock;
* the return-type concepts of value.hpp (concepts::NotRef,
  concepts::ConstCallable, concepts::Callable) over a fragment of the C++
  type grammar;
* an operational model of the accessor calls: mutex hold counts, the
  GuardedScope pointer-like guard, the callback APIs of Value, and the free
  with_exclusive combinator over N cells, each instrumented with an event
  trace (acquire, callback invocation, release) so that lock ordering and
  release-on-every-exit-path can be stated.

Exceptions thrown by user callbacks are embedded with Except: a callback
either returns normally or produces an error value that the accessor must
pass through unchanged after releasing its locks.
-/

set_option autoImplicit false

namespace Lockables

/-- Requested access mode: shared (reader) or exclusive (writer). -/
inductive Access where
  | shared
  | exclusive
deriving DecidableEq, Repr

/-- The std mutex primitives usable as the Mutex template parameter:
std::mutex, std::timed_mutex (a representative plain primitive other than
std::mutex), std::shared_mutex, std::shared_timed_mutex. -/
inductive MutexType where
  | stdMutex
  | timedMutex
  | sharedMutex
  | sharedTimedMutex
deriving DecidableEq, Repr

/-- The std lock wrapper classes the two headers instantiate. -/
inductive LockClass where
  | scopedLock (m : MutexType)
  | sharedLockC (m : MutexType)
  | uniqueLock (m : MutexType)
deriving DecidableEq, Repr

/-- Acquisition mode each std lock wrapper performs: std::shared_lock
acquires the mutex in shared mode; std::scoped_lock and std::unique_lock
acquire exclusively. -/
def LockClass.acqKind : LockClass → Access
  | .sharedLockC _ => .shared
  | .scopedLock _ => .exclusive
  | .uniqueLock _ => .exclusive

/-- A reader/writer primitive: natively supports a distinct
shared-acquisition mode.  Among the std primitives these are
std::shared_mutex and std::shared_timed_mutex. -/
def MutexType.supportsShared : MutexType → Bool
  | .sharedMutex => true
  | .sharedTimedMutex => true
  | _ => false

/-- guarded.hpp SharedLock trait: the primary template picks
std::scoped_lock<Mutex>; explicit specializations for std::shared_mutex and
std::shared_timed_mutex pick std::shared_lock of that mutex. -/
def SharedLock : MutexType → LockClass
  | .sharedMutex => .sharedLockC .sharedMutex
  | .sharedTimedMutex => .sharedLockC .sharedTimedMutex
  | m => .scopedLock m

/-- GuardedScope::lock_type: shared_lock_t<Mutex> when the element type T is
const, std::scoped_lock<Mutex> otherwise. -/
def GuardedScope.lockType (isConst : Bool) (m : MutexType) : LockClass :=
  if isConst then SharedLock m else .scopedLock m

/-- Acquisition Guarded<T, Mutex> performs for a requested access:
with_shared returns GuardedScope<const T, Mutex> (const element type),
with_exclusive returns GuardedScope<T, Mutex>. -/
def Guarded.acqFor (m : MutexType) : Access → Access
  | .shared => (GuardedScope.lockType true m).acqKind
  | .exclusive => (GuardedScope.lockType false m).acqKind

/-- value.hpp Value::shared_lock: std::shared_lock when Mutex is exactly
std::shared_mutex, std::scoped_lock for everyone else. -/
def Value.sharedLockOf (m : MutexType) : LockClass :=
  if m = .sharedMutex then .sharedLockC m else .scopedLock m

/-- value.hpp Value::exclusive_lock: std::unique_lock for std::shared_mutex,
std::scoped_lock for everyone else. -/
def Value.exclusiveLockOf (m : MutexType) : LockClass :=
  if m = .sharedMutex then .uniqueLock m else .scopedLock m

/-- Acquisition Value<T, Mutex> performs for a requested access. -/
def Value.acqFor (m : MutexType) : Access → Access
  | .shared => (Value.sharedLockOf m).acqKind
  | .exclusive => (Value.exclusiveLockOf m).acqKind

/-- Fragment of the C++ type grammar needed for the return-type concepts of
value.hpp: atomic types, const qualification, lvalue/rvalue references,
pointers. -/
inductive Ty where
  | base (id : Nat)
  | constT (t : Ty)
  | refT (t : Ty)
  | rrefT (t : Ty)
  | ptrT (t : Ty)
deriving DecidableEq, Repr

/-- std::is_reference_v: true for lvalue and rvalue reference types. -/
def Ty.is_reference : Ty → Bool
  | .refT _ => true
  | .rrefT _ => true
  | _ => false

/-- std::is_pointer_v: true for pointer types, including cv-qualified
pointers. -/
def Ty.is_pointer : Ty → Bool
  | .ptrT _ => true
  | .constT t => t.is_pointer
  | _ => false

/-- std::remove_reference_t. -/
def Ty.removeRef : Ty → Ty
  | .refT t => t
  | .rrefT t => t
  | t => t

/-- std::remove_cv_t (top-level const only in this grammar). -/
def Ty.removeCv : Ty → Ty
  | .constT t => t.removeCv
  | t => t

/-- std::decay_t restricted to this grammar (no array or function types):
remove the reference, then the top-level cv-qualifiers. -/
def Ty.decay (t : Ty) : Ty := t.removeRef.removeCv

namespace concepts

/-- value.hpp concepts::NotRef: not a reference, not a pointer, and equal to
its own decay. -/
def NotRef (t : Ty) : Bool :=
  !t.is_reference && !t.is_pointer && (t.decay == t)

end concepts

/-- A function object F as seen through one invocation signature: whether
std::invoke with that argument list is well-formed, and the
std::invoke_result_t type. -/
structure FnSig where
  invocable : Bool
  result : Ty
deriving DecidableEq, Repr

namespace concepts

/-- value.hpp concepts::ConstCallable, the requires-clause of
Value::with_shared: F invocable on const T& and the result satisfies
NotRef.  The signature argument is F as invoked on const T&. -/
def ConstCallable (f : FnSig) : Bool :=
  f.invocable && NotRef f.result

/-- value.hpp concepts::Callable, the requires-clause of
Value::with_exclusive: F invocable on T& and the result satisfies NotRef.
The signature argument is F as invoked on T&. -/
def Callable (f : FnSig) : Bool :=
  f.invocable && NotRef f.result

end concepts

/-- Requirement the free with_exclusive combinator of guarded.hpp places on
F: its declared return type std::invoke_result_t<F, ValueTypes&...> must
exist, i.e. F must be invocable; no concept constrains the result type. -/
def combinatorAccepts (f : FnSig) : Bool := f.invocable

/-- Dynamic state of one mutex: the number of outstanding exclusive and
shared holds.  The library drives these only through balanced
acquire/release pairs. -/
structure MutexSt where
  excl : Nat
  shrd : Nat
deriving DecidableEq, Repr

/-- A default-constructed mutex: nothing held. -/
def MutexSt.free : MutexSt := ⟨0, 0⟩

/-- Acquire the mutex in the given mode. -/
def MutexSt.acquire : Access → MutexSt → MutexSt
  | .shared, s => ⟨s.excl, s.shrd + 1⟩
  | .exclusive, s => ⟨s.excl + 1, s.shrd⟩

/-- Release one hold of the given mode. -/
def MutexSt.release : Access → MutexSt → MutexSt
  | .shared, s => ⟨s.excl, s.shrd - 1⟩
  | .exclusive, s => ⟨s.excl - 1, s.shrd⟩

/-- A Guarded/Value cell: the stored value value_ together with the state of
its mutex_. -/
structure Cell (α : Type) where
  value : α
  mutex : MutexSt

/-- Guarded/Value constructor: value_ is built in place from the forwarded
constructor arguments (modelled as the already-constructed T), and the
mutex is default-constructed. -/
def Guarded.construct {α : Type} (v : α) : Cell α := ⟨v, MutexSt.free⟩

/-- Observable events of one accessor or combinator call; idx identifies the
cell within a multi-cell combinator call (0 for single-cell calls).
invoke records the single invocation of the user callback, carrying the
argument values in the order they are passed. -/
inductive Ev (α : Type) where
  | acq (idx : Nat) (k : Access)
  | rel (idx : Nat) (k : Access)
  | invoke (args : List α)
deriving DecidableEq, Repr

/-- Is this event a callback invocation? -/
def Ev.isInvoke {α : Type} : Ev α → Bool
  | .invoke _ => true
  | _ => false

/-- GuardedScope<T, Mutex>: the pointer-like object returned by the Guarded
accessors.  non_owning_ is a T* (none models nullptr); the owned lock_ is
modelled by the bracket functions below, which acquire on construction and
release on destruction. -/
structure GuardedScopeM (α : Type) where
  nonOwning : Option α
deriving DecidableEq, Repr

/-- explicit operator bool: true iff non_owning_ is not nullptr. -/
def GuardedScopeM.toBool {α : Type} (g : GuardedScopeM α) : Bool :=
  g.nonOwning.isSome

/-- operator*: dereference the stored pointer.  Defined only for a non-null
pointer — dereferencing nullptr is undefined behavior in the source, hence
the hypothesis. -/
def GuardedScopeM.deref {α : Type} (g : GuardedScopeM α)
    (h : g.nonOwning.isSome) : α :=
  g.nonOwning.get h

/-- Guarded::with_shared followed by the idiomatic guard scope
`if (const auto guard = c.with_shared()) { body }`: construct
GuardedScope<const T, Mutex> from (&value_, mutex_), acquiring its
lock_type (const element type, so shared_lock_t<Mutex>); the body reads
the value through the guard; the guard destructor releases the lock.
Returns the body result, the cell afterwards, and the event trace. -/
def Guarded.withSharedScope {α β : Type} (mt : MutexType) (c : Cell α)
    (body : α → β) : β × Cell α × List (Ev α) :=
  let k := (GuardedScope.lockType true mt).acqKind
  let locked := MutexSt.acquire k c.mutex
  let g : GuardedScopeM α := ⟨some c.value⟩
  let r := body (g.deref rfl)
  (r, ⟨c.value, MutexSt.release k locked⟩, [Ev.acq 0 k, Ev.rel 0 k])

/-- Guarded::with_exclusive followed by the guard scope, with the body
allowed to exit normally or by throwing: GuardedScope<T, Mutex> is built
from (&value_, mutex_) with its lock_type (std::scoped_lock<Mutex>); the
body mutates the value through the guard (returning the updated value)
and finishes with Except.ok or Except.error; the guard destructor runs on
both exit paths, releasing the one lock it acquired. -/
def Guarded.withExclusiveScopeE {α β ε : Type} (mt : MutexType) (c : Cell α)
    (body : α → α × Except ε β) : Except ε β × Cell α × List (Ev α) :=
  let k := (GuardedScope.lockType false mt).acqKind
  let locked := MutexSt.acquire k c.mutex
  let g : GuardedScopeM α := ⟨some c.value⟩
  let br := body (g.deref rfl)
  (br.2, ⟨br.1, MutexSt.release k locked⟩, [Ev.acq 0 k, Ev.rel 0 k])

/-- Guarded::with_exclusive with a normally-returning body (the common
special case of the exception-aware scope). -/
def Guarded.withExclusiveScope {α β : Type} (mt : MutexType) (c : Cell α)
    (body : α → α × β) : β × Cell α × List (Ev α) :=
  let k := (GuardedScope.lockType false mt).acqKind
  let locked := MutexSt.acquire k c.mutex
  let g : GuardedScopeM α := ⟨some c.value⟩
  let br := body (g.deref rfl)
  (br.2, ⟨br.1, MutexSt.release k locked⟩, [Ev.acq 0 k, Ev.rel 0 k])

/-- Value::with_shared: acquire this Value's shared_lock for Mutex, invoke f
once on a const reference to value_, destroy the lock (also during
exception unwind), and return f's outcome unchanged.  f sees the value
read-only, so value_ is untouched. -/
def Value.withSharedE {α β ε : Type} (mt : MutexType) (f : α → Except ε β)
    (c : Cell α) : List (Ev α) × Except ε β × Cell α :=
  let k := (Value.sharedLockOf mt).acqKind
  let locked := MutexSt.acquire k c.mutex
  let r := f c.value
  ([Ev.acq 0 k, Ev.invoke [c.value], Ev.rel 0 k], r,
    ⟨c.value, MutexSt.release k locked⟩)

/-- Value::with_exclusive: acquire this Value's exclusive_lock for Mutex,
invoke f once on a mutable reference to value_ (modelled by f returning
the updated value alongside its outcome — mutations made before a throw
persist), destroy the lock on both exit paths, and return f's outcome
unchanged. -/
def Value.withExclusiveE {α β ε : Type} (mt : MutexType)
    (f : α → α × Except ε β) (c : Cell α) :
    List (Ev α) × Except ε β × Cell α :=
  let k := (Value.exclusiveLockOf mt).acqKind
  let locked := MutexSt.acquire k c.mutex
  let fr := f c.value
  ([Ev.acq 0 k, Ev.invoke [c.value], Ev.rel 0 k], fr.2,
    ⟨fr.1, MutexSt.release k locked⟩)

/-- The free with_exclusive combinator of guarded.hpp over N cells of a
common value type: std::scoped_lock jointly acquires all N mutexes, f is
invoked exactly once with the N values in argument order (mutable
references modelled by f returning the N updated values), the lock is
destroyed when f finishes — normally or by throwing — releasing all N, and
f's outcome passes through unchanged. -/
def withExclusiveN {n : Nat} {α β ε : Type}
    (f : (Fin n → α) → (Fin n → α) × Except ε β) (cells : Fin n → Cell α) :
    List (Ev α) × Except ε β × (Fin n → Cell α) :=
  let args := fun i => (cells i).value
  let fr := f args
  ((List.finRange n).map (fun i => Ev.acq i.val Access.exclusive)
      ++ Ev.invoke (List.ofFn args)
      :: (List.finRange n).reverse.map (fun i => Ev.rel i.val Access.exclusive),
    fr.2,
    fun i => ⟨fr.1 i,
      MutexSt.release Access.exclusive
        (MutexSt.acquire Access.exclusive (cells i).mutex)⟩)

/-- The with_exclusive combinator instantiated at two cells of distinct
value types, the instantiation the README and test examples use:
std::scoped_lock on both mutexes, one invocation of f with (T1&, T2&) in
argument order, release of both when f returns. -/
def withExclusive2 {α β γ : Type} (f : α → β → γ × α × β)
    (c1 : Cell α) (c2 : Cell β) : γ × Cell α × Cell β :=
  let fr := f c1.value c2.value
  (fr.1,
    ⟨fr.2.1, MutexSt.release Access.exclusive
      (MutexSt.acquire Access.exclusive c1.mutex)⟩,
    ⟨fr.2.2, MutexSt.release Access.exclusive
      (MutexSt.acquire Access.exclusive c2.mutex)⟩)

/-- The callback of the README / test.cpp combinator example:
sum = reduce(y) * x; each element of y is increased by sum; sum is
returned.  x is only read. -/
def readmeCallback : Int → List Int → Int × Int × List Int := fun x y =>
  let sum := y.sum * x
  (sum, x, y.map (fun item => item + sum))

/-- Releasing a hold acquired in the same mode restores the mutex state:
the balanced pattern every accessor follows. -/
theorem MutexSt.release_acquire (k : Access) (s : MutexSt) :
    MutexSt.release k (MutexSt.acquire k s) = s := by
  cases k <;> simp [MutexSt.acquire, MutexSt.release]

/-- C1 counterexample: std::shared_timed_mutex is a reader/writer primitive
with a native shared mode, yet Value<T, std::shared_timed_mutex>::with_shared
acquires exclusively, because Value::shared_lock only special-cases
std::shared_mutex.  (Guarded handles shared_timed_mutex via its SharedLock
specialization; Value does not.) -/
theorem value_sharedTimed_uses_exclusive :
    MutexType.sharedTimedMutex.supportsShared = true ∧
    Value.acqFor MutexType.sharedTimedMutex Access.shared = Access.exclusive ∧
    Guarded.acqFor MutexType.sharedTimedMutex Access.shared = Access.shared := by
  decide

/-- C1 (amended): for Guarded<T, Mutex> a shared request uses a shared
acquisition exactly when Mutex is a reader/writer primitive
(std::shared_mutex or std::shared_timed_mutex) and otherwise exclusive; for
Value<T, Mutex> a shared request uses a shared acquisition exactly when
Mutex is std::shared_mutex — with std::shared_timed_mutex Value falls back
to exclusive — and every exclusive request uses an exclusive acquisition in
both APIs. -/
theorem lock_selection_amended :
    ∀ (m : MutexType) (a : Access),
      Guarded.acqFor m a =
        (if m.supportsShared = true ∧ a = Access.shared then Access.shared
         else Access.exclusive) ∧
      Value.acqFor m a =
        (if m = MutexType.sharedMutex ∧ a = Access.shared then Access.shared
         else Access.exclusive) := by
  intro m a
  cases m <;> cases a <;> decide

/-- C6: Value::with_shared and Value::with_exclusive accept a function
object only if its invoke result type is neither a reference nor a pointer;
a callback whose result type is a reference or a pointer never satisfies
concepts::ConstCallable or concepts::Callable, while an invocable callback
returning a plain value type is accepted. -/
theorem callback_return_type_restriction :
    ∀ (f : FnSig),
      (concepts.ConstCallable f
          && (f.result.is_reference || f.result.is_pointer)) = false ∧
      (concepts.Callable f
          && (f.result.is_reference || f.result.is_pointer)) = false ∧
      concepts.ConstCallable ⟨true, Ty.base 0⟩ = true ∧
      concepts.Callable ⟨true, Ty.base 0⟩ = true := by
  intro f
  refine ⟨?_, ?_, by decide, by decide⟩ <;>
    · simp only [concepts.ConstCallable, concepts.Callable, concepts.NotRef]
      cases hr : f.result.is_reference <;>
        cases hp : f.result.is_pointer <;> simp [hr, hp]

/-- C10: the free with_exclusive combinator constrains its callback only by
invocability — callbacks whose result type is a reference or a pointer are
accepted even though Value's concepts reject them — and the combinator
hands the callback result to the caller only once every cell's mutex has
been restored to its pre-call state. -/
theorem combinator_no_return_type_restriction :
    ∀ (t : Ty),
      combinatorAccepts ⟨true, t⟩ = true ∧
      combinatorAccepts ⟨true, Ty.refT t⟩ = true ∧
      concepts.Callable ⟨true, Ty.refT t⟩ = false ∧
      concepts.ConstCallable ⟨true, Ty.refT t⟩ = false ∧
      combinatorAccepts ⟨true, Ty.ptrT t⟩ = true ∧
      concepts.Callable ⟨true, Ty.ptrT t⟩ = false ∧
      ∀ (n : Nat) (α β ε : Type)
        (g : (Fin n → α) → (Fin n → α) × Except ε β)
        (cells : Fin n → Cell α),
        (withExclusiveN g cells).2.1 = (g fun i => (cells i).value).2 ∧
        ∀ (i : Fin n),
          ((withExclusiveN g cells).2.2 i).mutex = (cells i).mutex := by
  intro t
  refine ⟨rfl, rfl, rfl, rfl, rfl, rfl, ?_⟩
  intro n α β ε g cells
  exact ⟨rfl, fun i => MutexSt.release_acquire Access.exclusive (cells i).mutex⟩

/-- C2: every GuardedScope releases exactly the one lock it acquired,
exactly once, on destruction — the trace of a guard scope is one acquire
followed by one release of the same kind, identical for normal return and
exception unwind, and the mutex returns to its pre-call state; the callback
APIs (Value::with_shared, Value::with_exclusive, the free with_exclusive
combinator) release their lock(s) before the callback outcome — error or
value, passed through unmodified — reaches the caller. -/
theorem scoped_release_every_exit_path :
    ∀ (mt : MutexType) (α β ε : Type) (c : Cell α)
      (body : α → α × Except ε β) (rd : α → β) (f : α → Except ε β)
      (g : α → α × Except ε β),
      (Guarded.withExclusiveScopeE mt c body).2.2 =
        [Ev.acq 0 (GuardedScope.lockType false mt).acqKind,
         Ev.rel 0 (GuardedScope.lockType false mt).acqKind] ∧
      (Guarded.withExclusiveScopeE mt c body).2.1.mutex = c.mutex ∧
      (Guarded.withExclusiveScopeE mt c body).1 = (body c.value).2 ∧
      (Guarded.withExclusiveScopeE mt c body).2.1.value = (body c.value).1 ∧
      (Guarded.withSharedScope mt c rd).2.2 =
        [Ev.acq 0 (GuardedScope.lockType true mt).acqKind,
         Ev.rel 0 (GuardedScope.lockType true mt).acqKind] ∧
      (Guarded.withSharedScope mt c rd).2.1.mutex = c.mutex ∧
      (Value.withSharedE mt f c).2.1 = f c.value ∧
      (Value.withSharedE mt f c).2.2.mutex = c.mutex ∧
      (Value.withSharedE mt f c).1 =
        [Ev.acq 0 (Value.sharedLockOf mt).acqKind, Ev.invoke [c.value],
         Ev.rel 0 (Value.sharedLockOf mt).acqKind] ∧
      (Value.withExclusiveE mt g c).2.1 = (g c.value).2 ∧
      (Value.withExclusiveE mt g c).2.2.mutex = c.mutex ∧
      ∀ (n : Nat) (h : (Fin n → α) → (Fin n → α) × Except ε β)
        (cells : Fin n → Cell α),
        (withExclusiveN h cells).2.1 = (h fun i => (cells i).value).2 ∧
        ∀ (i : Fin n),
          ((withExclusiveN h cells).2.2 i).mutex = (cells i).mutex := by
  intro mt α β ε c body rd f g
  refine ⟨rfl,
    MutexSt.release_acquire (GuardedScope.lockType false mt).acqKind c.mutex,
    rfl, rfl, rfl,
    MutexSt.release_acquire (GuardedScope.lockType true mt).acqKind c.mutex,
    rfl, MutexSt.release_acquire (Value.sharedLockOf mt).acqKind c.mutex,
    rfl, rfl,
    MutexSt.release_acquire (Value.exclusiveLockOf mt).acqKind c.mutex, ?_⟩
  intro n h cells
  exact ⟨rfl, fun i => MutexSt.release_acquire Access.exclusive (cells i).mutex⟩

/-- C3: a combinator call on N cells invokes the callback exactly once, with
the N stored values in the order the cells were passed; the call returns the
callback's outcome; the trace is the N joint acquisitions, then the single
invocation, then the N releases; each cell's value is updated positionally
and each cell's mutex is back to its pre-call state when the call returns. -/
theorem multilock_invocation_contract :
    ∀ (n : Nat) (α β ε : Type)
      (f : (Fin n → α) → (Fin n → α) × Except ε β)
      (cells : Fin n → Cell α),
      ((withExclusiveN f cells).1.filter Ev.isInvoke) =
        [Ev.invoke (List.ofFn fun i => (cells i).value)] ∧
      (withExclusiveN f cells).2.1 = (f fun i => (cells i).value).2 ∧
      (∀ (i : Fin n), ((withExclusiveN f cells).2.2 i).value =
        (f fun j => (cells j).value).1 i) ∧
      (withExclusiveN f cells).1 =
        ((List.finRange n).map fun i => Ev.acq i.val Access.exclusive)
          ++ Ev.invoke (List.ofFn fun i => (cells i).value)
          :: ((List.finRange n).reverse.map fun i =>
                Ev.rel i.val Access.exclusive) ∧
      ∀ (i : Fin n), ((withExclusiveN f cells).2.2 i).mutex =
        (cells i).mutex := by
  intro n α β ε f cells
  refine ⟨?_, rfl, fun i => rfl, rfl,
    fun i => MutexSt.release_acquire Access.exclusive (cells i).mutex⟩
  show (((List.finRange n).map fun (i : Fin n) => Ev.acq i.val Access.exclusive)
      ++ Ev.invoke (List.ofFn fun i => (cells i).value)
      :: ((List.finRange n).reverse.map fun (i : Fin n) =>
            Ev.rel i.val Access.exclusive)).filter Ev.isInvoke =
    [Ev.invoke (List.ofFn fun i => (cells i).value)]
  simp [List.filter_append, List.filter_map, Function.comp_def, Ev.isInvoke]

/-- C7: the zero-cell combinator call is legal: its trace contains no lock
events and exactly one invocation of the callback with the empty argument
list, and it returns the callback's outcome. -/
theorem zero_cell_combinator :
    ∀ (α β ε : Type) (f : (Fin 0 → α) → (Fin 0 → α) × Except ε β)
      (cells : Fin 0 → Cell α),
      (withExclusiveN f cells).1 = [Ev.invoke ([] : List α)] ∧
      (withExclusiveN f cells).2.1 = (f fun i => (cells i).value).2 := by
  intro α β ε f cells
  exact ⟨rfl, rfl⟩

/-- C4 counterexample: with c1 holding 10 and c2 holding [1, 2, 3, 4, 5],
the README combinator call returns 150 but leaves c2 holding
[151, 152, 153, 154, 155] — each element grows by sum = 150 — not
[31, 32, 33, 34, 35]. -/
theorem combinator_example_counterexample :
    (withExclusive2 readmeCallback (Guarded.construct (10 : Int))
        (Guarded.construct ([1, 2, 3, 4, 5] : List Int))).1 = 150 ∧
    (withExclusive2 readmeCallback (Guarded.construct (10 : Int))
        (Guarded.construct ([1, 2, 3, 4, 5] : List Int))).2.2.value =
      [151, 152, 153, 154, 155] ∧
    ([151, 152, 153, 154, 155] : List Int) ≠ [31, 32, 33, 34, 35] := by
  refine ⟨?_, ?_, by decide⟩ <;>
    simp [withExclusive2, readmeCallback, Guarded.construct, List.sum_cons]

/-- C4 (amended): the README combinator call on c1 = 10 and
c2 = [1, 2, 3, 4, 5] returns 150 and c2 becomes
[151, 152, 153, 154, 155]. -/
theorem combinator_example_amended :
    (withExclusive2 readmeCallback (Guarded.construct (10 : Int))
        (Guarded.construct ([1, 2, 3, 4, 5] : List Int))).1 = 150 ∧
    (withExclusive2 readmeCallback (Guarded.construct (10 : Int))
        (Guarded.construct ([1, 2, 3, 4, 5] : List Int))).2.1.value = 10 ∧
    (withExclusive2 readmeCallback (Guarded.construct (10 : Int))
        (Guarded.construct ([1, 2, 3, 4, 5] : List Int))).2.2.value =
      [151, 152, 153, 154, 155] := by
  refine ⟨?_, rfl, ?_⟩ <;>
    simp [withExclusive2, readmeCallback, Guarded.construct, List.sum_cons]

/-- C5: the Guarded constructor builds the stored value from its forwarded
arguments with a default-constructed mutex, and the README single-cell
example holds: construct 100, add 10 under an exclusive guard, then a
shared guard reads 110, for every mutex primitive. -/
theorem single_cell_example :
    ∀ (mt : MutexType),
      (∀ (α : Type) (v : α),
        (Guarded.construct v).value = v ∧
        (Guarded.construct v).mutex = MutexSt.free) ∧
      (Guarded.withSharedScope mt
          (Guarded.withExclusiveScope mt (Guarded.construct (100 : Int))
            (fun x => (x + 10, ()))).2.1
          (fun x => x)).1 = 110 := by
  intro mt
  exact ⟨fun α v => ⟨rfl, rfl⟩, rfl⟩

/-- C8: shared access leaves the cell's stored value unchanged and returns
the mutex to its pre-call state, for the Guarded shared guard scope and for
Value::with_shared with any callback. -/
theorem shared_access_frame :
    ∀ (mt : MutexType) (α β ε : Type) (c : Cell α) (body : α → β)
      (f : α → Except ε β),
      (Guarded.withSharedScope mt c body).2.1.value = c.value ∧
      (Guarded.withSharedScope mt c body).2.1.mutex = c.mutex ∧
      (Value.withSharedE mt f c).2.2.value = c.value ∧
      (Value.withSharedE mt f c).2.2.mutex = c.mutex := by
  intro mt α β ε c body f
  exact ⟨rfl, MutexSt.release_acquire _ _, rfl, MutexSt.release_acquire _ _⟩

/-- C9: a GuardedScope built from a null pointer converts to false and
offers no dereference (its pointer is not present), while one built from a
non-null pointer converts to true and dereferences to exactly the
referenced object. -/
theorem null_guard_falsy :
    ∀ (α : Type) (v : α),
      (GuardedScopeM.mk (none : Option α)).toBool = false ∧
      (GuardedScopeM.mk (none : Option α)).nonOwning.isSome = false ∧
      (GuardedScopeM.mk (some v)).toBool = true ∧
      (GuardedScopeM.mk (some v)).deref rfl = v := by
  intro α v
  exact ⟨rfl, rfl, rfl, rfl⟩

end Lockables
